import Mathlib

/-!
Verification of the lewton `inside_ogg` layer (logical-stream synchronization
and decode orchestration).

The definitions below shallowly embed `src/inside_ogg/sync.rs` and
`src/inside_ogg/async_api.rs`.  The external collaborators (the ogg packet
source, the header parsers of `header.rs`, the audio decoder of `audio.rs`)
are not part of the embedded sources; they are modelled from the spec as
abstract parameters collected in the `Collab` structure.  The blocking
packet source is modelled as a `List Packet` consumed from the front:
`read_packet` takes the head (`none` on exhaustion) and `read_packet_expected`
turns exhaustion into an error, exactly as the ogg crate's `PacketReader`
behaves at this layer.  Machine integers (`u32` serials, `u64` granules,
`usize` lengths) are modelled as `Nat`; the only arithmetic the embedded
code performs on them is `saturating_sub` (Nat subtraction) and addition of
sample counts, far from any overflow boundary relevant to the claims.
-/

namespace Lewton

/-- One container-level packet, as exposed by the ogg crate's `Packet`:
payload bytes, stream serial, absolute granule position of its page, and
the three boundary flags. -/
structure Packet where
  data : List Nat
  stream_serial : Nat
  absgp_page : Nat
  first_in_stream : Bool
  last_in_stream : Bool
  last_in_page : Bool
deriving DecidableEq

/-- Vorbis ident header as used by `sync.rs`: only the channel count and the
two block sizes are consumed (by the setup parse); `tag` stands for the rest
of the parsed content. -/
structure IdentHeader where
  audio_channels : Nat
  blocksize_0 : Nat
  blocksize_1 : Nat
  tag : Nat
deriving DecidableEq

/-- Vorbis comment header, opaque at this layer. -/
structure CommentHeader where
  tag : Nat
deriving DecidableEq

/-- Vorbis setup header, opaque at this layer. -/
structure SetupHeader where
  tag : Nat
deriving DecidableEq

/-- Decode-continuity state (`PreviousWindowRight` of `audio.rs`), opaque at
this layer; `tag` distinguishes states. -/
structure PreviousWindowRight where
  tag : Nat
deriving DecidableEq

/-- `PreviousWindowRight::new()`: the fresh continuity state. -/
def PreviousWindowRight.new : PreviousWindowRight := ⟨0⟩

/-- Error taxonomy of the spec (§7): `EndOfPhysicalStream` (source exhausted
while packets were still required), `FormatError` (malformed header),
`ContainerError` (failure of the packet source) and `DecodeError`. -/
inductive VorbisError where
  | endOfPhysicalStream
  | formatError
  | containerError
  | decodeError
deriving DecidableEq

/-- Modelled from the spec: the external collaborators of this layer (§6),
which are code of this repository outside the embedded sources.  The header
parsers are the pure functions `read_header_ident`, `read_header_comment`
and `read_header_setup` of `header.rs` (`none` = FormatError); the decoder
is `read_audio_packet` / `read_audio_packet_generic` of `audio.rs` (`none` =
DecodeError), returning the decoded samples of one unit together with the
updated continuity state; `seek_absgp` is the ogg `PacketReader`'s
page-granularity seek, returning the repositioned source (`none` =
ContainerError). -/
structure Collab where
  read_header_ident : List Nat → Option IdentHeader
  read_header_comment : List Nat → Option CommentHeader
  read_header_setup : List Nat → Nat → Nat × Nat → Option SetupHeader
  read_audio_packet : IdentHeader → SetupHeader → List Nat → PreviousWindowRight →
    Option (List Int × PreviousWindowRight)
  seek_absgp : Nat → List Packet → Option (List Packet)

/-- `PacketReader::read_packet_expected` on the list-modelled source: the
next packet, or `EndOfPhysicalStream` when the source is exhausted. -/
def read_packet_expected : List Packet → Except VorbisError (Packet × List Packet)
  | [] => .error .endOfPhysicalStream
  | p :: rest => .ok (p, rest)

/-- The `read_packet_expected` / `while stream_serial mismatch` loops of
`read_headers` in `sync.rs` (lines 29-32 and 35-38): pull packets until one
carries the wanted serial, failing with `EndOfPhysicalStream` on
exhaustion. -/
def read_matching (serial : Nat) : List Packet → Except VorbisError (Packet × List Packet)
  | [] => .error .endOfPhysicalStream
  | p :: rest =>
    if p.stream_serial = serial then .ok (p, rest) else read_matching serial rest

/-- `read_headers` of `sync.rs` (blocking header bootstrap): the first packet
pins the serial and is parsed as the ident header; the next packets carrying
that serial are parsed as comment and setup (the setup parse consuming the
channel count and block sizes of the ident header); the serial of the setup
packet is returned alongside the header triple.  `delete_unread_packets`
only drops page-buffer state of the source and is the identity in the list
model. -/
def read_headers (c : Collab) (src : List Packet) :
    Except VorbisError ((IdentHeader × CommentHeader × SetupHeader) × Nat × List Packet) :=
  match read_packet_expected src with
  | .error e => .error e
  | .ok (pck, src) =>
    match c.read_header_ident pck.data with
    | none => .error .formatError
    | some ident_hdr =>
      let stream_serial := pck.stream_serial
      match read_matching stream_serial src with
      | .error e => .error e
      | .ok (pck, src) =>
        match c.read_header_comment pck.data with
        | none => .error .formatError
        | some comment_hdr =>
          match read_matching stream_serial src with
          | .error e => .error e
          | .ok (pck, src) =>
            match c.read_header_setup pck.data ident_hdr.audio_channels
                (ident_hdr.blocksize_0, ident_hdr.blocksize_1) with
            | none => .error .formatError
            | some setup_hdr =>
              .ok ((ident_hdr, comment_hdr, setup_hdr), pck.stream_serial, src)

/-- `OggStreamReader` of `sync.rs`: the wrapped packet source, the continuity
state, the current stream serial, the header triple and the last-known
absolute granule position. -/
structure OggStreamReader where
  rdr : List Packet
  pwr : PreviousWindowRight
  stream_serial : Nat
  ident_hdr : IdentHeader
  comment_hdr : CommentHeader
  setup_hdr : SetupHeader
  cur_absgp : Option Nat
deriving DecidableEq

/-- `OggStreamReader::stream_serial()`. -/
def stream_identifier (s : OggStreamReader) : Nat := s.stream_serial

/-- `OggStreamReader::get_last_absgp()`. -/
def get_last_absgp (s : OggStreamReader) : Option Nat := s.cur_absgp

/-- The loop body of `OggStreamReader::read_next_audio_packet` (`sync.rs`
lines 107-152), with the source passed as an explicit list (the `rdr` field
of the returned reader is the remaining source).  Mutation of `&mut self`
is modelled by always returning the reader state alongside the
`Result`: on the foreign-serial, first-in-stream branch the chained-stream
headers are parsed into locals and the reader's fields are only assigned
once all three parses have succeeded, after which one packet is decoded
against the fresh continuity state and discarded (its page granule becoming
the last-known granule) and the following packet, if any, is returned. -/
def read_next_audio_packet_from (c : Collab) (s : OggStreamReader) :
    List Packet → Except VorbisError (Option Packet) × OggStreamReader
  | [] => (.ok none, { s with rdr := [] })
  | pck :: rest =>
    if pck.stream_serial ≠ s.stream_serial then
      if pck.first_in_stream then
        match c.read_header_ident pck.data with
        | none => (.error .formatError, { s with rdr := rest })
        | some ident_hdr =>
          match rest with
          | [] => (.error .endOfPhysicalStream, { s with rdr := [] })
          | pck2 :: rest =>
            match c.read_header_comment pck2.data with
            | none => (.error .formatError, { s with rdr := rest })
            | some comment_hdr =>
              match rest with
              | [] => (.error .endOfPhysicalStream, { s with rdr := [] })
              | pck3 :: rest =>
                match c.read_header_setup pck3.data ident_hdr.audio_channels
                    (ident_hdr.blocksize_0, ident_hdr.blocksize_1) with
                | none => (.error .formatError, { s with rdr := rest })
                | some setup_hdr =>
                  let s' : OggStreamReader :=
                    { s with
                      rdr := rest, pwr := PreviousWindowRight.new,
                      ident_hdr := ident_hdr, comment_hdr := comment_hdr,
                      setup_hdr := setup_hdr,
                      stream_serial := pck3.stream_serial, cur_absgp := none }
                  match rest with
                  | [] => (.ok none, { s' with rdr := [] })
                  | pck4 :: rest =>
                    match c.read_audio_packet s'.ident_hdr s'.setup_hdr pck4.data s'.pwr with
                    | none => (.error .decodeError, { s' with rdr := rest })
                    | some (_, pwr2) =>
                      let s'' : OggStreamReader :=
                        { s' with
                          rdr := rest, pwr := pwr2,
                          cur_absgp := some pck4.absgp_page }
                      match rest with
                      | [] => (.ok none, { s'' with rdr := [] })
                      | pck5 :: rest => (.ok (some pck5), { s'' with rdr := rest })
      else
        read_next_audio_packet_from c s rest
    else
      (.ok (some pck), { s with rdr := rest })

/-- `OggStreamReader::read_next_audio_packet`, running the loop on the
reader's own source. -/
def read_next_audio_packet (c : Collab) (s : OggStreamReader) :
    Except VorbisError (Option Packet) × OggStreamReader :=
  read_next_audio_packet_from c s s.rdr

/-- `OggStreamReader::read_dec_packet_generic` (`sync.rs` lines 172-197):
pull the next audio packet (end of source gives a successful `none`), decode
it, truncate the decoded unit to `absgp_page.saturating_sub(cur_absgp)`
samples when the packet is last-in-stream and a granule is known, then do
granule bookkeeping: a last-in-page packet's page granule is adopted as the
last-known granule, otherwise a known granule advances by the number of
samples just produced.  The `Samples::truncate` of the returned unit is
modelled (from the spec's truncation wording) by `List.take`, which like
`Vec::truncate` never extends. -/
def read_dec_packet_generic (c : Collab) (s : OggStreamReader) :
    Except VorbisError (Option (List Int)) × OggStreamReader :=
  match read_next_audio_packet c s with
  | (.error e, s') => (.error e, s')
  | (.ok none, s') => (.ok none, s')
  | (.ok (some pck), s') =>
    match c.read_audio_packet s'.ident_hdr s'.setup_hdr pck.data s'.pwr with
    | none => (.error .decodeError, s')
    | some (decoded, pwr2) =>
      let decoded :=
        match s'.cur_absgp, pck.last_in_stream with
        | some absgp, true => decoded.take (pck.absgp_page - absgp)
        | _, _ => decoded
      let cur : Option Nat :=
        if pck.last_in_page then some pck.absgp_page
        else
          match s'.cur_absgp with
          | some absgp => some (absgp + decoded.length)
          | none => none
      (.ok (some decoded), { s' with pwr := pwr2, cur_absgp := cur })

/-- `OggStreamReader::seek_absgp_pg` (`sync.rs` lines 239-245): delegate to
the source's page-granularity seek, then reset the last-known granule to
unknown and the continuity state to fresh. -/
def seek_absgp_pg (c : Collab) (absgp : Nat) (s : OggStreamReader) :
    Except VorbisError Unit × OggStreamReader :=
  match c.seek_absgp absgp s.rdr with
  | none => (.error .containerError, s)
  | some rdr2 =>
    (.ok (), { s with rdr := rdr2, cur_absgp := none, pwr := PreviousWindowRight.new })

/-- Result of one poll of a future or stream: suspension or a value. -/
inductive Poll (α : Type) where
  | pending
  | ready (a : α)
deriving DecidableEq

/-- The non-blocking packet source (the ogg crate's async `PacketReader`),
modelled as a list of poll outcomes consumed from the front: `none` is a
not-ready signal (the next poll may find data), `some p` yields packet `p`,
and exhaustion of the list is end of input (`Ready(None)`). -/
abbrev AsyncSource : Type := List (Option Packet)

/-- `HeadersReader` of `async_api.rs`: the async source plus the cached
ident and comment headers of the already-completed phases. -/
structure HeadersReader where
  pck_rd : AsyncSource
  ident_hdr : Option IdentHeader
  comment_hdr : Option CommentHeader
deriving DecidableEq

/-- `HeadersReader::new`: fresh state with no phase completed. -/
def HeadersReader.fresh (src : AsyncSource) : HeadersReader :=
  { pck_rd := src, ident_hdr := none, comment_hdr := none }

/-- The setup phase of `HeadersReader::poll` (`async_api.rs` lines 103-111):
poll one packet (suspending or failing on end of input), parse it as the
setup header against the cached ident header, and on success return the
completed triple, clearing both caches (the `replace(..., None)` calls). -/
def pollSetupPhase (c : Collab) (ih : IdentHeader) (ch : CommentHeader) (h : HeadersReader) :
    Except VorbisError (Poll (IdentHeader × CommentHeader × SetupHeader)) × HeadersReader :=
  match h.pck_rd with
  | [] => (.error .endOfPhysicalStream, h)
  | none :: es => (.ok .pending, { h with pck_rd := es })
  | some p :: es =>
    match c.read_header_setup p.data ih.audio_channels (ih.blocksize_0, ih.blocksize_1) with
    | none => (.error .formatError, { h with pck_rd := es })
    | some sh =>
      (.ok (.ready (ih, ch, sh)),
        { pck_rd := es, ident_hdr := none, comment_hdr := none })

/-- The comment phase of `HeadersReader::poll` (`async_api.rs` lines 99-102):
skipped when the comment header is already cached; otherwise poll one
packet, parse it as the comment header and cache it, then fall through to
the setup phase within the same poll. -/
def pollCommentPhase (c : Collab) (ih : IdentHeader) (h : HeadersReader) :
    Except VorbisError (Poll (IdentHeader × CommentHeader × SetupHeader)) × HeadersReader :=
  match h.comment_hdr with
  | some ch => pollSetupPhase c ih ch h
  | none =>
    match h.pck_rd with
    | [] => (.error .endOfPhysicalStream, h)
    | none :: es => (.ok .pending, { h with pck_rd := es })
    | some p :: es =>
      match c.read_header_comment p.data with
      | none => (.error .formatError, { h with pck_rd := es })
      | some ch =>
        pollSetupPhase c ih ch { h with pck_rd := es, comment_hdr := some ch }

/-- `HeadersReader::poll` (`async_api.rs` lines 75-113): the ident phase is
skipped when the ident header is already cached; otherwise one packet is
polled (suspending without touching the caches when the source is not
ready, failing on end of input), parsed as the ident header and cached,
after which the comment and setup phases run within the same poll. -/
def HeadersReader.poll (c : Collab) (h : HeadersReader) :
    Except VorbisError (Poll (IdentHeader × CommentHeader × SetupHeader)) × HeadersReader :=
  match h.ident_hdr with
  | some ih => pollCommentPhase c ih h
  | none =>
    match h.pck_rd with
    | [] => (.error .endOfPhysicalStream, h)
    | none :: es => (.ok .pending, { h with pck_rd := es })
    | some p :: es =>
      match c.read_header_ident p.data with
      | none => (.error .formatError, { h with pck_rd := es })
      | some ih =>
        pollCommentPhase c ih { h with pck_rd := es, ident_hdr := some ih }

/-- Drive `HeadersReader.poll` like an executor: retry up to `n` more times
while the poll suspends, returning the first non-pending outcome (or the
last pending one when the retry budget is spent). -/
def runPoll (c : Collab) : Nat → HeadersReader →
    Except VorbisError (Poll (IdentHeader × CommentHeader × SetupHeader)) × HeadersReader
  | 0, h => HeadersReader.poll c h
  | n + 1, h =>
    match HeadersReader.poll c h with
    | (.ok .pending, h') => runPoll c n h'
    | r => r

/-!
Helper lemmas: evaluation of the reader loop on the shapes of source the
claims speak about.
-/

/-- An exhausted source makes the packet loop report end of stream. -/
theorem read_next_from_nil (c : Collab) (s : OggStreamReader) :
    read_next_audio_packet_from c s [] = (.ok none, { s with rdr := [] }) := rfl

/-- A packet carrying the reader's serial is returned as-is. -/
theorem read_next_from_match (c : Collab) (s : OggStreamReader) (pck : Packet)
    (rest : List Packet) (hser : pck.stream_serial = s.stream_serial) :
    read_next_audio_packet_from c s (pck :: rest) = (.ok (some pck), { s with rdr := rest }) := by
  simp [read_next_audio_packet_from, hser]

/-- A foreign packet that is not first-in-stream is skipped without any
effect on the reader. -/
theorem read_next_from_skip (c : Collab) (s : OggStreamReader) (pck : Packet)
    (rest : List Packet) (hser : pck.stream_serial ≠ s.stream_serial)
    (hfirst : pck.first_in_stream = false) :
    read_next_audio_packet_from c s (pck :: rest) = read_next_audio_packet_from c s rest := by
  simp [read_next_audio_packet_from, hser, hfirst]

/-- Full evaluation of the chain-transition branch on a source holding the
three header packets, the priming packet and at least one further packet. -/
theorem read_next_from_transition (c : Collab) (s : OggStreamReader)
    (p1 p2 p3 p4 p5 : Packet) (rest : List Packet)
    (ih : IdentHeader) (ch : CommentHeader) (sh : SetupHeader)
    (u : List Int) (pwr2 : PreviousWindowRight)
    (hser : p1.stream_serial ≠ s.stream_serial) (hfirst : p1.first_in_stream = true)
    (hi : c.read_header_ident p1.data = some ih)
    (hc : c.read_header_comment p2.data = some ch)
    (hs : c.read_header_setup p3.data ih.audio_channels (ih.blocksize_0, ih.blocksize_1) = some sh)
    (hd : c.read_audio_packet ih sh p4.data PreviousWindowRight.new = some (u, pwr2)) :
    read_next_audio_packet_from c s (p1 :: p2 :: p3 :: p4 :: p5 :: rest) =
      (.ok (some p5),
        { s with
          rdr := rest, pwr := pwr2, ident_hdr := ih, comment_hdr := ch,
          setup_hdr := sh, stream_serial := p3.stream_serial,
          cur_absgp := some p4.absgp_page }) := by
  simp [read_next_audio_packet_from, hser, hfirst, hi, hc, hs, hd]

/-- A source made only of foreign, not-first-in-stream packets is skipped
wholesale and the loop reports end of stream. -/
theorem read_next_from_all_foreign (c : Collab) (s : OggStreamReader) :
    ∀ l : List Packet,
      (∀ p ∈ l, p.stream_serial ≠ s.stream_serial ∧ p.first_in_stream = false) →
      read_next_audio_packet_from c s l = (.ok none, { s with rdr := [] })
  | [], _ => rfl
  | p :: rest, h => by
    have hp := h p (List.mem_cons_self p rest)
    rw [read_next_from_skip c s p rest hp.1 hp.2]
    exact read_next_from_all_foreign c s rest (fun q hq => h q (List.mem_cons_of_mem p hq))

/-- `read_matching` returns the first packet carrying the wanted serial,
skipping the mismatching prefix. -/
theorem read_matching_append (serial : Nat) (p2 : Packet) (l2 : List Packet) :
    ∀ l1 : List Packet, (∀ q ∈ l1, q.stream_serial ≠ serial) →
      p2.stream_serial = serial →
      read_matching serial (l1 ++ p2 :: l2) = .ok (p2, l2)
  | [], _, hp => by simp [read_matching, hp]
  | q :: l1, h, hp => by
    have hq := h q (List.mem_cons_self q l1)
    simp only [List.cons_append, read_matching, if_neg hq]
    exact read_matching_append serial p2 l2 l1 (fun r hr => h r (List.mem_cons_of_mem q hr)) hp

/-- `read_matching` fails with `EndOfPhysicalStream` when no packet carries
the wanted serial. -/
theorem read_matching_none (serial : Nat) :
    ∀ l : List Packet, (∀ q ∈ l, q.stream_serial ≠ serial) →
      read_matching serial l = .error .endOfPhysicalStream
  | [], _ => rfl
  | q :: l, h => by
    have hq := h q (List.mem_cons_self q l)
    simp only [read_matching, if_neg hq]
    exact read_matching_none serial l (fun r hr => h r (List.mem_cons_of_mem q hr))

/-!
Concrete instantiations of the spec-modelled collaborators, used by
witnesses and counterexamples.
-/

/-- Test collaborators: every parser and the decoder fail exactly on an
empty payload; the decoder yields one sample per payload byte and advances
the continuity tag; seek drops a prefix of the source. -/
def testCollab : Collab where
  read_header_ident := fun d => if d = [] then none else some ⟨1, 2, 3, d.length⟩
  read_header_comment := fun d => if d = [] then none else some ⟨d.length⟩
  read_header_setup := fun d ch bs =>
    if d = [] then none else some ⟨d.length + ch + bs.1 + bs.2⟩
  read_audio_packet := fun _ _ d pwr =>
    if d = [] then none else some (List.replicate d.length 0, ⟨pwr.tag + 1⟩)
  seek_absgp := fun g l => some (l.drop g)

/-- Test collaborators whose parsers never fail, for the bootstrap-failure
scenarios where exhaustion is the only possible error. -/
def totalCollab : Collab where
  read_header_ident := fun d => some ⟨1, 2, 3, d.length⟩
  read_header_comment := fun d => some ⟨d.length⟩
  read_header_setup := fun d ch bs => some ⟨d.length + ch + bs.1 + bs.2⟩
  read_audio_packet := fun _ _ d pwr => some (List.replicate d.length 0, ⟨pwr.tag + 1⟩)
  seek_absgp := fun g l => some (l.drop g)

/-- A reader pinned to serial 1 with an empty source, used by witnesses. -/
def wReader : OggStreamReader :=
  { rdr := [], pwr := ⟨0⟩, stream_serial := 1, ident_hdr := ⟨1, 2, 3, 0⟩,
    comment_hdr := ⟨0⟩, setup_hdr := ⟨0⟩, cur_absgp := some 5 }

/-!
C9 — seek resets the continuity state and the last-known granule and leaves
headers and serial alone.
-/

/-- C9: after a successful `seek_absgp_pg`, the continuity state is freshly
re-created and the last-known granule is unknown, while the header triple
and the current stream serial are unchanged. -/
theorem C9_seek_resets_continuity (c : Collab) (g : Nat) (s : OggStreamReader)
    (rdr2 : List Packet) (h : c.seek_absgp g s.rdr = some rdr2) :
    seek_absgp_pg c g s =
      (.ok (), { s with rdr := rdr2, cur_absgp := none, pwr := PreviousWindowRight.new }) ∧
    get_last_absgp (seek_absgp_pg c g s).2 = none ∧
    (seek_absgp_pg c g s).2.pwr = PreviousWindowRight.new ∧
    (seek_absgp_pg c g s).2.ident_hdr = s.ident_hdr ∧
    (seek_absgp_pg c g s).2.comment_hdr = s.comment_hdr ∧
    (seek_absgp_pg c g s).2.setup_hdr = s.setup_hdr ∧
    stream_identifier (seek_absgp_pg c g s).2 = stream_identifier s := by
  simp [seek_absgp_pg, h, get_last_absgp, stream_identifier]

/-- C9 witness: the seek theorem evaluated on a concrete reader. -/
theorem C9_seek_resets_continuity_witness :
    seek_absgp_pg testCollab 0 wReader =
      (.ok (), { wReader with rdr := [], cur_absgp := none, pwr := PreviousWindowRight.new }) :=
  (C9_seek_resets_continuity testCollab 0 wReader [] rfl).1

/-!
C5 — source exhaustion during normal decoding is a successful `none`.
-/

/-- C5: an exhausted source makes `read_dec_packet_generic` return the
distinct end-of-stream outcome `.ok none` with the reader untouched, never
an error; likewise when the remaining source holds nothing but foreign
not-first-in-stream packets, which are silently skipped until exhaustion. -/
theorem C5_end_of_source_is_none (c : Collab) (s : OggStreamReader) :
    (s.rdr = [] → read_dec_packet_generic c s = (.ok none, s)) ∧
    ((∀ p ∈ s.rdr, p.stream_serial ≠ s.stream_serial ∧ p.first_in_stream = false) →
      (read_dec_packet_generic c s).1 = .ok none) := by
  constructor
  · intro hnil
    have hs : ({ s with rdr := [] } : OggStreamReader) = s := by
      cases s; simp_all
    simp [read_dec_packet_generic, read_next_audio_packet, hnil, read_next_from_nil, hs]
  · intro hall
    simp [read_dec_packet_generic, read_next_audio_packet,
      read_next_from_all_foreign c s s.rdr hall]

/-- C5 witness: end of source on a concrete empty-source reader. -/
theorem C5_end_of_source_is_none_witness :
    read_dec_packet_generic testCollab wReader = (.ok none, wReader) :=
  (C5_end_of_source_is_none testCollab wReader).1 rfl

/-!
C2 — end-of-stream truncation.
-/

/-- C2 (amended): when the decoded packet is last-in-logical-stream and a
last-known granule `a` is established, the returned unit is the decoded
unit truncated to `absgp_page − a` samples, hence has exactly
`min n (max 0 (G − a))` samples where `n` is the decoder's sample count —
truncation never extends a unit that is already shorter than the target. -/
theorem C2_truncation_min (c : Collab) (s : OggStreamReader) (pck : Packet)
    (rest : List Packet) (u : List Int) (pwr2 : PreviousWindowRight) (a : Nat)
    (hr : s.rdr = pck :: rest) (hser : pck.stream_serial = s.stream_serial)
    (habs : s.cur_absgp = some a) (hlast : pck.last_in_stream = true)
    (hdec : c.read_audio_packet s.ident_hdr s.setup_hdr pck.data s.pwr = some (u, pwr2)) :
    (read_dec_packet_generic c s).1 = .ok (some (u.take (pck.absgp_page - a))) ∧
    (u.take (pck.absgp_page - a)).length = min u.length (pck.absgp_page - a) := by
  have h1 : read_next_audio_packet c s = (.ok (some pck), { s with rdr := rest }) := by
    rw [read_next_audio_packet, hr]
    exact read_next_from_match c s pck rest hser
  refine ⟨?_, by simp [List.length_take, Nat.min_comm]⟩
  simp [read_dec_packet_generic, h1, hdec, habs, hlast]

/-- Packet used by the C2 counterexample: last in its logical stream, page
granule 10, but the decoder only yields two samples for it. -/
def c2Pck : Packet :=
  { data := [7, 7], stream_serial := 1, absgp_page := 10,
    first_in_stream := false, last_in_stream := true, last_in_page := true }

/-- Reader used by the C2 counterexample: granule 3 is established and the
next source packet is `c2Pck`. -/
def c2Reader : OggStreamReader :=
  { rdr := [c2Pck], pwr := ⟨0⟩, stream_serial := 1, ident_hdr := ⟨1, 2, 3, 1⟩,
    comment_hdr := ⟨1⟩, setup_hdr := ⟨1⟩, cur_absgp := some 3 }

/-- C2 counterexample: with final page granule `G = 10` and prior granule
`P = 3`, the claim demands exactly `max 0 (G − P) = 7` samples, but the
decoder produced only two samples for the final packet and truncation
cannot extend, so the returned unit has 2 samples. -/
theorem C2_counterexample :
    (read_dec_packet_generic testCollab c2Reader).1 = .ok (some [0, 0]) ∧
    ([0, 0] : List Int).length ≠ c2Pck.absgp_page - 3 := by
  constructor
  · rfl
  · decide

/-!
C4 — granule monotonicity across one successful decode step.
-/

/-- C4: within one uninterrupted logical stream (the pulled packet carries
the reader's serial, so no chain transition and no seek intervenes), a
known last-known granule never decreases across a successful
`read_dec_packet_generic` call.  The hypothesis `hwf` is the container
validity assumption of the data model: an authoritative page checkpoint is
a cumulative sample count, so it cannot lie below the already-established
granule position. -/
theorem C4_granule_monotone (c : Collab) (s : OggStreamReader) (pck : Packet)
    (rest : List Packet) (u : List Int) (pwr2 : PreviousWindowRight) (a : Nat)
    (hr : s.rdr = pck :: rest) (hser : pck.stream_serial = s.stream_serial)
    (habs : s.cur_absgp = some a)
    (hdec : c.read_audio_packet s.ident_hdr s.setup_hdr pck.data s.pwr = some (u, pwr2))
    (hwf : pck.last_in_page = true → a ≤ pck.absgp_page) :
    ∃ a', get_last_absgp (read_dec_packet_generic c s).2 = some a' ∧ a ≤ a' := by
  have h1 : read_next_audio_packet c s = (.ok (some pck), { s with rdr := rest }) := by
    rw [read_next_audio_packet, hr]
    exact read_next_from_match c s pck rest hser
  rcases hpage : pck.last_in_page with _ | _
  · exact ⟨a + (if pck.last_in_stream then u.take (pck.absgp_page - a) else u).length,
      by simp [read_dec_packet_generic, h1, hdec, habs, hpage, get_last_absgp]; split <;>
        simp_all, Nat.le_add_right _ _⟩
  · exact ⟨pck.absgp_page,
      by simp [read_dec_packet_generic, h1, hdec, habs, hpage, get_last_absgp],
      hwf hpage⟩

/-- C2 amended-claim witness: the truncation theorem evaluated on the
concrete reader, where the target is `10 − 3 = 7` and the decoder produced
two samples. -/
theorem C2_truncation_min_witness :
    (read_dec_packet_generic testCollab c2Reader).1 =
      .ok (some (([0, 0] : List Int).take (c2Pck.absgp_page - 3))) :=
  (C2_truncation_min testCollab c2Reader c2Pck [] [0, 0] ⟨1⟩ 3 rfl rfl rfl rfl rfl).1

/-- C4 witness: the monotonicity theorem evaluated on the concrete reader,
where the established granule 3 may only grow. -/
theorem C4_granule_monotone_witness :
    ∃ a', get_last_absgp (read_dec_packet_generic testCollab c2Reader).2 = some a' ∧ 3 ≤ a' :=
  C4_granule_monotone testCollab c2Reader c2Pck [] [0, 0] ⟨1⟩ 3 rfl rfl rfl rfl
    (fun _ => by decide)

/-!
C1 — foreign packets and chain transitions inside `read_next_audio_packet`.
-/

/-- C1: a pulled packet whose serial differs from the reader's and that is
not first-in-stream is silently dropped — the call behaves exactly as if
the packet were absent from the source, so it neither appears as output nor
raises an error; a foreign packet that is first-in-stream triggers a chain
transition: the three packets starting at it are parsed as ident, comment
and setup, the header triple is replaced, the continuity state is reset to
fresh and then primed by decoding and discarding exactly one further
packet, the current serial becomes the new stream's serial, and the packet
after the priming one is handed on for normal decoding with no error at
the boundary, `stream_identifier` now reporting the new serial. -/
theorem C1_foreign_and_chain_transition :
    (∀ (c : Collab) (s : OggStreamReader) (p : Packet) (rest : List Packet),
      p.stream_serial ≠ s.stream_serial → p.first_in_stream = false →
      read_next_audio_packet_from c s (p :: rest) = read_next_audio_packet_from c s rest) ∧
    (∀ (c : Collab) (s : OggStreamReader) (p1 p2 p3 p4 p5 : Packet) (rest : List Packet)
      (ih : IdentHeader) (ch : CommentHeader) (sh : SetupHeader)
      (u : List Int) (pwr2 : PreviousWindowRight),
      s.rdr = p1 :: p2 :: p3 :: p4 :: p5 :: rest →
      p1.stream_serial ≠ s.stream_serial → p1.first_in_stream = true →
      p3.stream_serial = p1.stream_serial →
      c.read_header_ident p1.data = some ih →
      c.read_header_comment p2.data = some ch →
      c.read_header_setup p3.data ih.audio_channels (ih.blocksize_0, ih.blocksize_1) = some sh →
      c.read_audio_packet ih sh p4.data PreviousWindowRight.new = some (u, pwr2) →
      read_next_audio_packet c s =
        (.ok (some p5),
          { s with
            rdr := rest, pwr := pwr2, ident_hdr := ih, comment_hdr := ch,
            setup_hdr := sh, stream_serial := p1.stream_serial,
            cur_absgp := some p4.absgp_page }) ∧
      stream_identifier (read_next_audio_packet c s).2 = p1.stream_serial) := by
  constructor
  · exact fun c s p rest hser hfirst => read_next_from_skip c s p rest hser hfirst
  · intro c s p1 p2 p3 p4 p5 rest ih ch sh u pwr2 hr hser hfirst hp3 hi hc hs hd
    have h1 : read_next_audio_packet c s =
        (.ok (some p5),
          { s with
            rdr := rest, pwr := pwr2, ident_hdr := ih, comment_hdr := ch,
            setup_hdr := sh, stream_serial := p1.stream_serial,
            cur_absgp := some p4.absgp_page }) := by
      rw [read_next_audio_packet, hr,
        read_next_from_transition c s p1 p2 p3 p4 p5 rest ih ch sh u pwr2 hser hfirst hi hc hs hd,
        hp3]
    exact ⟨h1, by rw [h1]; rfl⟩

/-- Header packets of the chained stream B (serial 2) used by the concrete
chain-transition scenarios: ident, comment, setup, a priming audio packet
with page granule 5, and one audio packet yielding two samples. -/
def chainPck1 : Packet :=
  { data := [1], stream_serial := 2, absgp_page := 0,
    first_in_stream := true, last_in_stream := false, last_in_page := false }

/-- Comment-header packet of the chained stream. -/
def chainPck2 : Packet :=
  { data := [1, 1], stream_serial := 2, absgp_page := 0,
    first_in_stream := false, last_in_stream := false, last_in_page := false }

/-- Setup-header packet of the chained stream. -/
def chainPck3 : Packet :=
  { data := [1, 1, 1], stream_serial := 2, absgp_page := 0,
    first_in_stream := false, last_in_stream := false, last_in_page := false }

/-- Priming audio packet of the chained stream; its page granule 5 is
adopted during the transition although it is not last-in-page. -/
def chainPck4 : Packet :=
  { data := [4], stream_serial := 2, absgp_page := 5,
    first_in_stream := false, last_in_stream := false, last_in_page := false }

/-- First returned audio packet of the chained stream, two samples. -/
def chainPck5 : Packet :=
  { data := [4, 4], stream_serial := 2, absgp_page := 9,
    first_in_stream := false, last_in_stream := false, last_in_page := false }

/-- Reader pinned to serial 1 whose source opens with stream B's packets:
every pull triggers the chain transition. -/
def chainReader : OggStreamReader :=
  { rdr := [chainPck1, chainPck2, chainPck3, chainPck4, chainPck5],
    pwr := ⟨0⟩, stream_serial := 1, ident_hdr := ⟨9, 9, 9, 9⟩,
    comment_hdr := ⟨9⟩, setup_hdr := ⟨9⟩, cur_absgp := some 100 }

/-- C1 witness: both branches evaluated concretely — a foreign non-first
packet is skipped, and the concrete chained source transitions to serial 2
returning the post-priming packet. -/
theorem C1_foreign_and_chain_transition_witness :
    read_next_audio_packet_from testCollab wReader (chainPck2 :: []) =
      read_next_audio_packet_from testCollab wReader [] ∧
    stream_identifier (read_next_audio_packet testCollab chainReader).2 = 2 := by
  constructor
  · exact C1_foreign_and_chain_transition.1 testCollab wReader chainPck2 []
      (by decide) (by decide)
  · exact (C1_foreign_and_chain_transition.2 testCollab chainReader
      chainPck1 chainPck2 chainPck3 chainPck4 chainPck5 []
      ⟨1, 2, 3, 1⟩ ⟨2⟩ ⟨3 + 1 + 2 + 3⟩ [0] ⟨1⟩
      rfl (by decide) rfl rfl rfl rfl rfl rfl).2

/-!
C3 — when the last-known granule is unknown and how it becomes known.
-/

/-- C3 counterexample: the reader decodes across a chain transition whose
source contains no last-in-page packet at all, yet immediately after the
transition call `get_last_absgp` is known (the transition's priming step
adopted the priming packet's page granule, `sync.rs` line 142), refuting
"unknown immediately after a chain transition ... known again only once a
packet flagged last-in-page has been observed". -/
theorem C3_counterexample :
    (read_dec_packet_generic testCollab chainReader).1 = .ok (some [0, 0]) ∧
    get_last_absgp (read_dec_packet_generic testCollab chainReader).2 = some 7 ∧
    (∀ p ∈ chainReader.rdr, p.last_in_page = false) := by
  exact ⟨rfl, rfl, by decide⟩

/-- C3 (amended): the last-known granule is unknown immediately after a
successful seek; on a normal-path decode step (pulled packet carries the
reader's serial, so no transition intervenes) an unknown granule becomes
known exactly when the decoded packet is flagged last-in-page; during a
chain transition, however, the granule is reset to unknown only
transiently — the priming step sets it to the priming packet's page
granule, whether or not that packet is last-in-page, so it is known
immediately after the transition completes. -/
theorem C3_granule_unknown_amended :
    (∀ (c : Collab) (g : Nat) (s : OggStreamReader) (rdr2 : List Packet),
      c.seek_absgp g s.rdr = some rdr2 →
      get_last_absgp (seek_absgp_pg c g s).2 = none) ∧
    (∀ (c : Collab) (s : OggStreamReader) (pck : Packet) (rest : List Packet)
      (u : List Int) (pwr2 : PreviousWindowRight),
      s.rdr = pck :: rest → pck.stream_serial = s.stream_serial →
      s.cur_absgp = none →
      c.read_audio_packet s.ident_hdr s.setup_hdr pck.data s.pwr = some (u, pwr2) →
      get_last_absgp (read_dec_packet_generic c s).2 =
        (if pck.last_in_page then some pck.absgp_page else none)) ∧
    (∀ (c : Collab) (s : OggStreamReader) (p1 p2 p3 p4 p5 : Packet) (rest : List Packet)
      (ih : IdentHeader) (ch : CommentHeader) (sh : SetupHeader)
      (u : List Int) (pwr2 : PreviousWindowRight),
      s.rdr = p1 :: p2 :: p3 :: p4 :: p5 :: rest →
      p1.stream_serial ≠ s.stream_serial → p1.first_in_stream = true →
      c.read_header_ident p1.data = some ih →
      c.read_header_comment p2.data = some ch →
      c.read_header_setup p3.data ih.audio_channels (ih.blocksize_0, ih.blocksize_1) = some sh →
      c.read_audio_packet ih sh p4.data PreviousWindowRight.new = some (u, pwr2) →
      get_last_absgp (read_next_audio_packet c s).2 = some p4.absgp_page) := by
  refine ⟨?_, ?_, ?_⟩
  · intro c g s rdr2 h
    simp [seek_absgp_pg, h, get_last_absgp]
  · intro c s pck rest u pwr2 hr hser habs hdec
    have h1 : read_next_audio_packet c s = (.ok (some pck), { s with rdr := rest }) := by
      rw [read_next_audio_packet, hr]
      exact read_next_from_match c s pck rest hser
    simp [read_dec_packet_generic, h1, hdec, habs, get_last_absgp]
  · intro c s p1 p2 p3 p4 p5 rest ih ch sh u pwr2 hr hser hfirst hi hc hs hd
    rw [read_next_audio_packet, hr,
      read_next_from_transition c s p1 p2 p3 p4 p5 rest ih ch sh u pwr2 hser hfirst hi hc hs hd]
    rfl

/-- C3 amended-claim witness: seek on a concrete reader makes the granule
unknown, and the concrete chain transition makes it the priming packet's
page granule 5. -/
theorem C3_granule_unknown_amended_witness :
    get_last_absgp (seek_absgp_pg testCollab 0 wReader).2 = none ∧
    get_last_absgp (read_next_audio_packet testCollab chainReader).2 = some 5 := by
  constructor
  · exact C3_granule_unknown_amended.1 testCollab 0 wReader [] rfl
  · exact C3_granule_unknown_amended.2.2 testCollab chainReader
      chainPck1 chainPck2 chainPck3 chainPck4 chainPck5 []
      ⟨1, 2, 3, 1⟩ ⟨2⟩ ⟨3 + 1 + 2 + 3⟩ [0] ⟨1⟩
      rfl (by decide) rfl rfl rfl rfl rfl

/-!
C10 — all-or-nothing header replacement on a failed chain transition.
-/

/-- C10: when any of the three header parses of a chain transition fails,
the error propagates through `read_dec_packet_generic` and the reader's
header triple, stream serial, continuity state and last-known granule are
all exactly as before the call (only the source position has advanced):
the context is replaced all-or-nothing with respect to header parse
failures. -/
theorem C10_transition_parse_failure_atomic (c : Collab) (s : OggStreamReader)
    (p1 : Packet) (rest : List Packet)
    (hr : s.rdr = p1 :: rest)
    (hser : p1.stream_serial ≠ s.stream_serial) (hfirst : p1.first_in_stream = true) :
    (c.read_header_ident p1.data = none →
      read_dec_packet_generic c s = (.error .formatError, { s with rdr := rest })) ∧
    (∀ (ih : IdentHeader) (p2 : Packet) (rest2 : List Packet),
      rest = p2 :: rest2 → c.read_header_ident p1.data = some ih →
      c.read_header_comment p2.data = none →
      read_dec_packet_generic c s = (.error .formatError, { s with rdr := rest2 })) ∧
    (∀ (ih : IdentHeader) (ch : CommentHeader) (p2 p3 : Packet) (rest3 : List Packet),
      rest = p2 :: p3 :: rest3 → c.read_header_ident p1.data = some ih →
      c.read_header_comment p2.data = some ch →
      c.read_header_setup p3.data ih.audio_channels (ih.blocksize_0, ih.blocksize_1) = none →
      read_dec_packet_generic c s = (.error .formatError, { s with rdr := rest3 })) := by
  refine ⟨?_, ?_, ?_⟩
  · intro hi
    rw [read_dec_packet_generic, read_next_audio_packet, hr]
    simp [read_next_audio_packet_from, hser, hfirst, hi]
  · intro ih p2 rest2 hrest hi hc
    subst hrest
    rw [read_dec_packet_generic, read_next_audio_packet, hr]
    simp [read_next_audio_packet_from, hser, hfirst, hi, hc]
  · intro ih ch p2 p3 rest3 hrest hi hc hs
    subst hrest
    rw [read_dec_packet_generic, read_next_audio_packet, hr]
    simp [read_next_audio_packet_from, hser, hfirst, hi, hc, hs]

/-- Reader for the C10 witness scenarios: pinned to serial 1, source
opening with a foreign first-in-stream packet whose chained headers fail to
parse at the chosen phase (empty payloads fail under `testCollab`). -/
def c10Reader (hdr2 hdr3 : List Nat) : OggStreamReader :=
  { rdr := [{ data := [1], stream_serial := 2, absgp_page := 0,
              first_in_stream := true, last_in_stream := false, last_in_page := false },
            { data := hdr2, stream_serial := 2, absgp_page := 0,
              first_in_stream := false, last_in_stream := false, last_in_page := false },
            { data := hdr3, stream_serial := 2, absgp_page := 0,
              first_in_stream := false, last_in_stream := false, last_in_page := false }],
    pwr := ⟨0⟩, stream_serial := 1, ident_hdr := ⟨1, 2, 3, 0⟩,
    comment_hdr := ⟨0⟩, setup_hdr := ⟨0⟩, cur_absgp := some 5 }

/-- The packet left unread in the comment-failure witness scenario. -/
def c10LeftPck : Packet :=
  { data := [3], stream_serial := 2, absgp_page := 0,
    first_in_stream := false, last_in_stream := false, last_in_page := false }

/-- C10 witness: the comment-parse-failure and setup-parse-failure cases
evaluated concretely — the error surfaces and the reader keeps its old
context. -/
theorem C10_transition_parse_failure_atomic_witness :
    read_dec_packet_generic testCollab (c10Reader [] [3])
      = (.error .formatError, { c10Reader [] [3] with rdr := [c10LeftPck] }) ∧
    read_dec_packet_generic testCollab (c10Reader [2] [])
      = (.error .formatError, { c10Reader [2] [] with rdr := [] }) := by
  constructor
  · exact (C10_transition_parse_failure_atomic testCollab (c10Reader [] [3])
      _ _ rfl (by decide) rfl).2.1 ⟨1, 2, 3, 1⟩ _ _ rfl rfl rfl
  · exact (C10_transition_parse_failure_atomic testCollab (c10Reader [2] [])
      _ _ rfl (by decide) rfl).2.2 ⟨1, 2, 3, 1⟩ ⟨1⟩ _ _ _ rfl rfl rfl rfl

/-!
C6 — behaviour of the blocking header bootstrap.
-/

/-- C6: `read_headers` pins the target stream to the serial of the first
packet it reads, skips every subsequent packet whose serial differs,
parses the three packets matching that serial in order as ident, comment
and setup — the setup parse consuming the channel count and block sizes of
the already-parsed ident header — and returns the header triple together
with a stream serial equal to the pinned one. -/
theorem C6_read_headers_pins_first_serial (c : Collab) (p1 : Packet)
    (l1 : List Packet) (p2 : Packet) (l2 : List Packet) (p3 : Packet) (l3 : List Packet)
    (ih : IdentHeader) (ch : CommentHeader) (sh : SetupHeader)
    (hi : c.read_header_ident p1.data = some ih)
    (hskip1 : ∀ q ∈ l1, q.stream_serial ≠ p1.stream_serial)
    (hp2 : p2.stream_serial = p1.stream_serial)
    (hc : c.read_header_comment p2.data = some ch)
    (hskip2 : ∀ q ∈ l2, q.stream_serial ≠ p1.stream_serial)
    (hp3 : p3.stream_serial = p1.stream_serial)
    (hs : c.read_header_setup p3.data ih.audio_channels (ih.blocksize_0, ih.blocksize_1) = some sh) :
    read_headers c (p1 :: (l1 ++ p2 :: (l2 ++ p3 :: l3))) =
      .ok ((ih, ch, sh), p1.stream_serial, l3) := by
  rw [read_headers]
  simp only [read_packet_expected, hi,
    read_matching_append p1.stream_serial p2 (l2 ++ p3 :: l3) l1 hskip1 hp2, hc,
    read_matching_append p1.stream_serial p3 l3 l2 hskip2 hp3, hs, hp3]

/-- Matching header packets of serial 7 with one foreign packet (serial 8)
interleaved before the comment, used by the C6 witness. -/
def c6Src : List Packet :=
  [{ data := [1], stream_serial := 7, absgp_page := 0,
     first_in_stream := true, last_in_stream := false, last_in_page := false },
   { data := [9], stream_serial := 8, absgp_page := 0,
     first_in_stream := false, last_in_stream := false, last_in_page := false },
   { data := [1, 1], stream_serial := 7, absgp_page := 0,
     first_in_stream := false, last_in_stream := false, last_in_page := false },
   { data := [1, 1, 1], stream_serial := 7, absgp_page := 0,
     first_in_stream := false, last_in_stream := false, last_in_page := false }]

/-- C6 witness: the bootstrap theorem evaluated on a concrete source where
a foreign packet sits between ident and comment. -/
theorem C6_read_headers_pins_first_serial_witness :
    read_headers testCollab c6Src =
      .ok ((⟨1, 2, 3, 1⟩, ⟨2⟩, ⟨3 + 1 + 2 + 3⟩), 7, []) := by
  exact C6_read_headers_pins_first_serial testCollab
    { data := [1], stream_serial := 7, absgp_page := 0,
      first_in_stream := true, last_in_stream := false, last_in_page := false }
    [{ data := [9], stream_serial := 8, absgp_page := 0,
       first_in_stream := false, last_in_stream := false, last_in_page := false }]
    { data := [1, 1], stream_serial := 7, absgp_page := 0,
      first_in_stream := false, last_in_stream := false, last_in_page := false }
    []
    { data := [1, 1, 1], stream_serial := 7, absgp_page := 0,
      first_in_stream := false, last_in_stream := false, last_in_page := false }
    [] ⟨1, 2, 3, 1⟩ ⟨2⟩ ⟨3 + 1 + 2 + 3⟩
    rfl (by decide) rfl rfl (by decide) rfl rfl

/-!
C7 — bootstrap failure on a source with too few matching packets.
-/

/-- On success `read_matching` yields a packet carrying the wanted serial
and a remainder with one matching packet fewer. -/
theorem read_matching_success_count (serial : Nat) :
    ∀ l : List Packet, 0 < l.countP (fun q => q.stream_serial == serial) →
      ∃ p2 r2, read_matching serial l = .ok (p2, r2) ∧
        r2.countP (fun q => q.stream_serial == serial) + 1 =
          l.countP (fun q => q.stream_serial == serial)
  | [], h => by simp at h
  | q :: l, h => by
    by_cases hq : q.stream_serial = serial
    · refine ⟨q, l, by simp [read_matching, hq], ?_⟩
      simp [List.countP_cons, hq]
    · have h' : 0 < l.countP (fun q => q.stream_serial == serial) := by
        simpa [List.countP_cons, hq] using h
      obtain ⟨p2, r2, heq, hcnt⟩ := read_matching_success_count serial l h'
      exact ⟨p2, r2, by simp [read_matching, hq, heq], by simpa [List.countP_cons, hq] using hcnt⟩

/-- `read_matching` on a remainder with no matching packet fails with
`EndOfPhysicalStream`. -/
theorem read_matching_countP_zero (serial : Nat) (l : List Packet)
    (h : l.countP (fun q => q.stream_serial == serial) = 0) :
    read_matching serial l = .error .endOfPhysicalStream := by
  refine read_matching_none serial l (fun q hq => ?_)
  have := List.countP_eq_zero.mp h q hq
  simpa using this

/-- C7: when the parsers themselves cannot fail, a source holding fewer
than three packets of the pinned serial (the serial of its first packet)
makes `read_headers` fail with `EndOfPhysicalStream` — exhaustion is never
reported as a `FormatError`. -/
theorem C7_bootstrap_exhaustion (c : Collab) (src : List Packet)
    (hI : ∀ d, (c.read_header_ident d).isSome)
    (hC : ∀ d, (c.read_header_comment d).isSome)
    (hcount : ∀ p r, src = p :: r →
      r.countP (fun q => q.stream_serial == p.stream_serial) < 2) :
    read_headers c src = .error .endOfPhysicalStream := by
  match src with
  | [] => rfl
  | p :: r =>
    obtain ⟨ih, hi⟩ := Option.isSome_iff_exists.mp (hI p.data)
    have hcnt := hcount p r rfl
    rw [read_headers]
    simp only [read_packet_expected, hi]
    rcases Nat.lt_or_ge 0 (r.countP (fun q => q.stream_serial == p.stream_serial)) with hpos | hz
    · obtain ⟨p2, r2, heq, hc2⟩ := read_matching_success_count p.stream_serial r hpos
      obtain ⟨ch, hc⟩ := Option.isSome_iff_exists.mp (hC p2.data)
      have hr2 : r2.countP (fun q => q.stream_serial == p.stream_serial) = 0 := by omega
      simp only [heq, hc, read_matching_countP_zero p.stream_serial r2 hr2]
    · have hz' : r.countP (fun q => q.stream_serial == p.stream_serial) = 0 := by omega
      simp only [read_matching_countP_zero p.stream_serial r hz']

/-- C7 witness: a source with only two packets of the pinned serial, under
parsers that never fail, exhausts with `EndOfPhysicalStream`. -/
theorem C7_bootstrap_exhaustion_witness :
    read_headers totalCollab
      [{ data := [1], stream_serial := 7, absgp_page := 0,
         first_in_stream := true, last_in_stream := false, last_in_page := false },
       { data := [1, 1], stream_serial := 7, absgp_page := 0,
         first_in_stream := false, last_in_stream := false, last_in_page := false }]
      = .error .endOfPhysicalStream := by
  refine C7_bootstrap_exhaustion totalCollab _ (fun d => rfl) (fun d => rfl) ?_
  intro p r h
  injection h with h1 h2
  subst h1; subst h2
  decide

/-!
C8 — idempotence and progress of the non-blocking header state machine.
-/

/-- A poll that finds the source not ready suspends immediately, consuming
only the not-ready signal, in every cache state. -/
theorem poll_head_pending (c : Collab) (h : HeadersReader) (es : AsyncSource)
    (hsrc : h.pck_rd = none :: es) :
    HeadersReader.poll c h = (.ok .pending, { h with pck_rd := es }) := by
  obtain ⟨src, oi, oc⟩ := h
  simp only at hsrc
  subst hsrc
  cases oi <;> cases oc <;>
    simp [HeadersReader.poll, pollCommentPhase, pollSetupPhase]

/-- A suspending poll preserves every already-cached header. -/
theorem poll_pending_keeps_caches (c : Collab) (h h' : HeadersReader)
    (hp : HeadersReader.poll c h = (.ok .pending, h')) :
    (∀ i, h.ident_hdr = some i → h'.ident_hdr = some i) ∧
    (∀ ch, h.comment_hdr = some ch → h'.comment_hdr = some ch) := by
  obtain ⟨src, oi, oc⟩ := h
  simp only [HeadersReader.poll, pollCommentPhase, pollSetupPhase] at hp
  repeat' split at hp
  all_goals rw [Prod.mk.injEq] at hp
  all_goals obtain ⟨hp1, hp2⟩ := hp
  all_goals subst hp2
  all_goals simp_all

/-- With the ident header cached, a poll never consults the ident parser. -/
theorem poll_ident_cached_no_reparse (c : Collab) (f : List Nat → Option IdentHeader)
    (h : HeadersReader) (i : IdentHeader) (hi : h.ident_hdr = some i) :
    HeadersReader.poll { c with read_header_ident := f } h = HeadersReader.poll c h := by
  obtain ⟨src, oi, oc⟩ := h
  simp only at hi
  subst hi
  rfl

/-- With the comment header cached, a poll never consults the comment
parser. -/
theorem poll_comment_cached_no_reparse (c : Collab) (g : List Nat → Option CommentHeader)
    (h : HeadersReader) (ch : CommentHeader) (hc : h.comment_hdr = some ch) :
    HeadersReader.poll { c with read_header_comment := g } h = HeadersReader.poll c h := by
  obtain ⟨src, oi, oc⟩ := h
  simp only at hc
  subst hc
  cases oi <;> rfl

/-- Completion of the setup phase: with ident and comment cached and the
source offering `d` not-ready signals before the setup packet, `d` retries
suffice to finish with the parsed triple. -/
theorem runPoll_ready_from_setup (c : Collab) (p3 : Packet) (rest : AsyncSource)
    (ih : IdentHeader) (ch : CommentHeader) (sh : SetupHeader)
    (hs : c.read_header_setup p3.data ih.audio_channels (ih.blocksize_0, ih.blocksize_1) = some sh) :
    ∀ d : Nat, ∃ n, runPoll c n
        ⟨List.replicate d none ++ some p3 :: rest, some ih, some ch⟩ =
        (.ok (.ready (ih, ch, sh)), ⟨rest, none, none⟩)
  | 0 => ⟨0, by simp [runPoll, HeadersReader.poll, pollCommentPhase, pollSetupPhase, hs]⟩
  | d + 1 => by
    obtain ⟨n, hn⟩ := runPoll_ready_from_setup c p3 rest ih ch sh hs d
    refine ⟨n + 1, ?_⟩
    have hp : HeadersReader.poll c
        ⟨List.replicate (d + 1) none ++ some p3 :: rest, some ih, some ch⟩ =
        (.ok .pending, ⟨List.replicate d none ++ some p3 :: rest, some ih, some ch⟩) := by
      exact poll_head_pending c _ _ (by simp [List.replicate_succ])
    simp [runPoll, hp, hn]

/-- Completion of the comment and setup phases: with the ident header
cached, enough retries finish with the parsed triple, the comment parsed
from the first packet offered and the setup from the second. -/
theorem runPoll_ready_from_comment (c : Collab) (p2 p3 : Packet) (rest : AsyncSource)
    (ih : IdentHeader) (ch : CommentHeader) (sh : SetupHeader) (d : Nat)
    (hc : c.read_header_comment p2.data = some ch)
    (hs : c.read_header_setup p3.data ih.audio_channels (ih.blocksize_0, ih.blocksize_1) = some sh) :
    ∀ b : Nat, ∃ n, runPoll c n
        ⟨List.replicate b none ++ some p2 :: (List.replicate d none ++ some p3 :: rest),
          some ih, none⟩ =
        (.ok (.ready (ih, ch, sh)), ⟨rest, none, none⟩)
  | 0 => by
    match d with
    | 0 =>
      exact ⟨0, by simp [runPoll, HeadersReader.poll, pollCommentPhase, pollSetupPhase, hc, hs]⟩
    | d' + 1 =>
      obtain ⟨n, hn⟩ := runPoll_ready_from_setup c p3 rest ih ch sh hs d'
      refine ⟨n + 1, ?_⟩
      have hp : HeadersReader.poll c
          ⟨some p2 :: (List.replicate (d' + 1) none ++ some p3 :: rest), some ih, none⟩ =
          (.ok .pending, ⟨List.replicate d' none ++ some p3 :: rest, some ih, some ch⟩) := by
        simp [HeadersReader.poll, pollCommentPhase, pollSetupPhase, hc, List.replicate_succ]
      simp [runPoll, hp, hn]
  | b + 1 => by
    obtain ⟨n, hn⟩ := runPoll_ready_from_comment c p2 p3 rest ih ch sh d hc hs b
    refine ⟨n + 1, ?_⟩
    have hp : HeadersReader.poll c
        ⟨List.replicate (b + 1) none ++ some p2 ::
          (List.replicate d none ++ some p3 :: rest), some ih, none⟩ =
        (.ok .pending, ⟨List.replicate b none ++ some p2 ::
          (List.replicate d none ++ some p3 :: rest), some ih, none⟩) := by
      exact poll_head_pending c _ _ (by simp [List.replicate_succ])
    simp [runPoll, hp, hn]

/-- Completion from a fresh reader: with not-ready signals interleaved
before each of the three packets, enough retries finish with all three
headers parsed, leaving the source at the remainder. -/
theorem runPoll_ready_from_fresh (c : Collab) (p1 p2 p3 : Packet) (rest : AsyncSource)
    (ih : IdentHeader) (ch : CommentHeader) (sh : SetupHeader) (b d : Nat)
    (hi : c.read_header_ident p1.data = some ih)
    (hc : c.read_header_comment p2.data = some ch)
    (hs : c.read_header_setup p3.data ih.audio_channels (ih.blocksize_0, ih.blocksize_1) = some sh) :
    ∀ a : Nat, ∃ n, runPoll c n (HeadersReader.fresh
        (List.replicate a none ++ some p1 :: (List.replicate b none ++ some p2 ::
          (List.replicate d none ++ some p3 :: rest)))) =
        (.ok (.ready (ih, ch, sh)), ⟨rest, none, none⟩)
  | 0 => by
    match b with
    | 0 =>
      match d with
      | 0 =>
        exact ⟨0, by simp [runPoll, HeadersReader.fresh, HeadersReader.poll,
          pollCommentPhase, pollSetupPhase, hi, hc, hs]⟩
      | d' + 1 =>
        obtain ⟨n, hn⟩ := runPoll_ready_from_setup c p3 rest ih ch sh hs d'
        refine ⟨n + 1, ?_⟩
        have hp : HeadersReader.poll c (HeadersReader.fresh
            (some p1 :: (some p2 :: (List.replicate (d' + 1) none ++ some p3 :: rest)))) =
            (.ok .pending, ⟨List.replicate d' none ++ some p3 :: rest, some ih, some ch⟩) := by
          simp [HeadersReader.fresh, HeadersReader.poll, pollCommentPhase, pollSetupPhase,
            hi, hc, List.replicate_succ]
        simp [runPoll, hp, hn]
    | b' + 1 =>
      obtain ⟨n, hn⟩ := runPoll_ready_from_comment c p2 p3 rest ih ch sh d hc hs b'
      refine ⟨n + 1, ?_⟩
      have hp : HeadersReader.poll c (HeadersReader.fresh
          (some p1 :: (List.replicate (b' + 1) none ++ some p2 ::
            (List.replicate d none ++ some p3 :: rest)))) =
          (.ok .pending, ⟨List.replicate b' none ++ some p2 ::
            (List.replicate d none ++ some p3 :: rest), some ih, none⟩) := by
        simp [HeadersReader.fresh, HeadersReader.poll, pollCommentPhase, pollSetupPhase,
          hi, List.replicate_succ]
      simp [runPoll, hp, hn]
  | a + 1 => by
    obtain ⟨n, hn⟩ := runPoll_ready_from_fresh c p1 p2 p3 rest ih ch sh b d hi hc hs a
    refine ⟨n + 1, ?_⟩
    have hp : HeadersReader.poll c (HeadersReader.fresh
        (List.replicate (a + 1) none ++ some p1 :: (List.replicate b none ++ some p2 ::
          (List.replicate d none ++ some p3 :: rest)))) =
        (.ok .pending, HeadersReader.fresh
          (List.replicate a none ++ some p1 :: (List.replicate b none ++ some p2 ::
            (List.replicate d none ++ some p3 :: rest)))) := by
      exact poll_head_pending c _ _ (by simp [HeadersReader.fresh, List.replicate_succ])
    simp [runPoll, hp, hn]

/-- C8: the non-blocking header state machine is idempotent over completed
phases — a suspending poll preserves every cached header, a poll never
consults the ident (resp. comment) parser once that header is cached — and
from a fresh reader, however the source interleaves not-ready signals with
the three header packets, repeated polling eventually completes with the
triple obtained by parsing each of the three packets once. -/
theorem C8_poll_idempotent_and_complete :
    (∀ (c : Collab) (h h' : HeadersReader),
      HeadersReader.poll c h = (.ok .pending, h') →
      (∀ i, h.ident_hdr = some i → h'.ident_hdr = some i) ∧
      (∀ ch, h.comment_hdr = some ch → h'.comment_hdr = some ch)) ∧
    (∀ (c : Collab) (f : List Nat → Option IdentHeader) (h : HeadersReader) (i : IdentHeader),
      h.ident_hdr = some i →
      HeadersReader.poll { c with read_header_ident := f } h = HeadersReader.poll c h) ∧
    (∀ (c : Collab) (g : List Nat → Option CommentHeader) (h : HeadersReader) (ch : CommentHeader),
      h.comment_hdr = some ch →
      HeadersReader.poll { c with read_header_comment := g } h = HeadersReader.poll c h) ∧
    (∀ (c : Collab) (p1 p2 p3 : Packet) (rest : AsyncSource)
      (ih : IdentHeader) (ch : CommentHeader) (sh : SetupHeader) (a b d : Nat),
      c.read_header_ident p1.data = some ih →
      c.read_header_comment p2.data = some ch →
      c.read_header_setup p3.data ih.audio_channels (ih.blocksize_0, ih.blocksize_1) = some sh →
      ∃ n, runPoll c n (HeadersReader.fresh
          (List.replicate a none ++ some p1 :: (List.replicate b none ++ some p2 ::
            (List.replicate d none ++ some p3 :: rest)))) =
          (.ok (.ready (ih, ch, sh)), ⟨rest, none, none⟩)) :=
  ⟨poll_pending_keeps_caches,
   poll_ident_cached_no_reparse,
   poll_comment_cached_no_reparse,
   fun c p1 p2 p3 rest ih ch sh a b d hi hc hs =>
     runPoll_ready_from_fresh c p1 p2 p3 rest ih ch sh b d hi hc hs a⟩

/-- Async header packets for the C8 witness. -/
def c8Pck1 : Packet :=
  { data := [1], stream_serial := 7, absgp_page := 0,
    first_in_stream := true, last_in_stream := false, last_in_page := false }

/-- Async comment packet for the C8 witness. -/
def c8Pck2 : Packet :=
  { data := [1, 1], stream_serial := 7, absgp_page := 0,
    first_in_stream := false, last_in_stream := false, last_in_page := false }

/-- Async setup packet for the C8 witness. -/
def c8Pck3 : Packet :=
  { data := [1, 1, 1], stream_serial := 7, absgp_page := 0,
    first_in_stream := false, last_in_stream := false, last_in_page := false }

/-- C8 witness: a suspending poll on a concrete part-way state keeps the
cached ident header, and a fresh reader over a concrete source with one
not-ready signal before the comment packet completes with the three parsed
headers. -/
theorem C8_poll_idempotent_and_complete_witness :
    (⟨([] : AsyncSource), some ⟨1, 2, 3, 1⟩, none⟩ : HeadersReader).ident_hdr =
      some ⟨1, 2, 3, 1⟩ ∧
    (∃ n, runPoll testCollab n (HeadersReader.fresh
        [some c8Pck1, none, some c8Pck2, some c8Pck3]) =
        (.ok (.ready (⟨1, 2, 3, 1⟩, ⟨2⟩, ⟨3 + 1 + 2 + 3⟩)), ⟨[], none, none⟩)) := by
  constructor
  · exact (C8_poll_idempotent_and_complete.1 testCollab
      ⟨[none], some ⟨1, 2, 3, 1⟩, none⟩ ⟨[], some ⟨1, 2, 3, 1⟩, none⟩ rfl).1 ⟨1, 2, 3, 1⟩ rfl
  · exact C8_poll_idempotent_and_complete.2.2.2 testCollab c8Pck1 c8Pck2 c8Pck3 []
      ⟨1, 2, 3, 1⟩ ⟨2⟩ ⟨3 + 1 + 2 + 3⟩ 0 1 0 rfl rfl rfl

end Lewton
